import Mathlib

/-!
Shallow embedding of the XP-bot economy engine (src/api/bot.py) and proofs
about its leveling, daily-reward, message-reward and shop/rank logic.

Conventions of the embedding:
* Python ints are modelled as Nat (all quantities involved are non-negative).
* Calendar dates are modelled as day numbers (Nat); a moment in time is a day
  number plus the number of whole seconds elapsed since local midnight.
* `int(required_xp * Config.XP_MULTIPLIER)` with `XP_MULTIPLIER = 1.5` is
  modelled as `3 * r / 2` (Nat division), the exact-arithmetic value of the
  float expression for every realistically reachable magnitude.
* Database rows are modelled as a record `UserRec`; each handler is a function
  from the fetched record (and the event data) to the record it writes back,
  paired with the outcome it reports.
-/

namespace Config

def XP_PER_MESSAGE : Nat := 5

def COINS_PER_MESSAGE : Nat := 2

def DAILY_REWARD_COINS : Nat := 100

def DAILY_REWARD_XP : Nat := 50

def BASE_XP : Nat := 100

/-- `Config.RANK_PRICES`, an association list in the dict ordering. -/
def RANK_PRICES : List (String × Nat) :=
  [("VIP", 5000), ("Premium", 15000), ("Admin", 50000)]

end Config

/-- One entry of `Config.SHOP_ITEMS`. -/
structure ShopItem where
  name : String
  price : Nat
  itemType : String
  duration : Option Nat
deriving DecidableEq

/-- `Config.SHOP_ITEMS`, in dict ordering (the purchase handler indexes into
`list(Config.SHOP_ITEMS.keys())`, which follows this ordering). -/
def SHOP_ITEMS : List ShopItem :=
  [⟨"🎯 Double XP (1 hour)", 500, "boost", some 3600⟩,
   ⟨"💰 Coin Multiplier (1 hour)", 750, "boost", some 3600⟩,
   ⟨"🌟 Custom Title", 2000, "cosmetic", none⟩,
   ⟨"🎨 Profile Theme", 1500, "cosmetic", none⟩,
   ⟨"🏆 Achievement Badge", 3000, "cosmetic", none⟩]

/-- `int(required_xp * Config.XP_MULTIPLIER)` for `XP_MULTIPLIER = 1.5`:
truncated multiplication by three halves. -/
def nextRequired (r : Nat) : Nat := 3 * r / 2

/-- The `while xp >= required_xp` loop of `calculate_level`.  The `0 < r`
conjunct only guards termination of the model; in the program `required_xp`
starts at `BASE_XP = 100` and never decreases, so the guard is always true
whenever the loop condition is. -/
def levelAux (xp r level : Nat) : Nat :=
  if h : 0 < r ∧ r ≤ xp then levelAux (xp - r) (nextRequired r) (level + 1)
  else level
termination_by xp
decreasing_by omega

/-- `calculate_level` (bot.py lines 197-207). -/
def calculate_level (xp : Nat) : Nat := levelAux xp Config.BASE_XP 1

/-- The `for i in range(1, level)` accumulation of `calculate_xp_for_level`:
sum of `n` terms of the required-XP progression starting at `r`. -/
def sumFrom (r : Nat) : Nat → Nat
  | 0 => 0
  | n + 1 => r + sumFrom (nextRequired r) n

/-- `calculate_xp_for_level` (bot.py lines 209-218). -/
def calculate_xp_for_level (level : Nat) : Nat :=
  sumFrom Config.BASE_XP (level - 1)

/-- The fields of a row of the `users` table that the economy logic reads or
writes.  `last_daily` is the day number of the recorded claim timestamp
(`None` ↦ `none`); `last_active` is a timestamp, kept abstract as a Nat. -/
structure UserRec where
  xp : Nat
  level : Nat
  coins : Nat
  rank : String
  last_daily : Option Nat
  daily_streak : Nat
  total_messages : Nat
  last_active : Nat
deriving DecidableEq

/-- `time_until_next_day` (bot.py lines 121-130), with `now` given as the
number of whole seconds since local midnight (microsecond part zero).
`tomorrow - now` is `86400 - secs` seconds; `timedelta` normalises exactly one
day to `days = 1, seconds = 0`, hence the `% 86400`. -/
def time_until_next_day (secs : Nat) : String :=
  let s := (86400 - secs) % 86400
  toString (s / 3600) ++ "h " ++ toString (s % 3600 / 60) ++ "m"

/-- The dict returned by `check_daily_reward`: either
`{"can_claim": True, "streak": n}` or
`{"can_claim": False, "reason": r}` optionally carrying `"time_left"`. -/
inductive DailyCheck where
  | canClaim (streak : Nat)
  | noClaim (reason : String) (time_left : Option String)
deriving DecidableEq

/-- `check_daily_reward` (bot.py lines 245-279) as it executes.  Its first
statement is `user = await get_or_create_user(user.id)`: the name `user` is a
local being assigned on that very line, so reading `user.id` raises
UnboundLocalError on every call; the `except Exception` handler turns this
into `{"can_claim": False, "reason": "Database error"}`.  The function is
therefore constant in its inputs. -/
def check_daily_reward (_u : UserRec) (_today _secs : Nat) : DailyCheck :=
  DailyCheck.noClaim "Database error" none

/-- The unreachable body of `check_daily_reward` (bot.py lines 252-275): the
eligibility logic that runs after the user lookup, were the lookup written as
`get_or_create_user(user_id)`.  `today` is the current day number and `secs`
the seconds since local midnight (used only for `time_until_next_day`). -/
def check_daily_reward_body (u : UserRec) (today secs : Nat) : DailyCheck :=
  match u.last_daily with
  | none => DailyCheck.canClaim 0
  | some last_daily_date =>
    if last_daily_date = today then
      DailyCheck.noClaim "Already claimed today" (some (time_until_next_day secs))
    else if last_daily_date = today - 1 then
      DailyCheck.canClaim (u.daily_streak + 1)
    else
      DailyCheck.canClaim 1

/-- The reward-granting tail of `daily_command` (bot.py lines 453-476): given
the streak reported by the eligibility check, computes the streak bonus and
the coin/XP totals and writes the updated row.  `now_day` is the day number of
the `datetime.now()` stored into `last_daily`. -/
def daily_grant (u : UserRec) (streak now_day : Nat) : UserRec :=
  let streak_bonus := min (streak * 10) 200
  let total_coins := Config.DAILY_REWARD_COINS + Config.DAILY_REWARD_COINS * streak_bonus / 100
  let total_xp := Config.DAILY_REWARD_XP + Config.DAILY_REWARD_XP * streak_bonus / 100
  { u with coins := u.coins + total_coins,
           xp := u.xp + total_xp,
           level := calculate_level (u.xp + total_xp),
           last_daily := some now_day,
           daily_streak := streak }

/-- `update_user_xp` (bot.py lines 165-195): adds the gains, recomputes the
level, bumps `total_messages`, stamps `last_active`, and reports whether a
level-up occurred (`new_level > user.level`). -/
def update_user_xp (u : UserRec) (xp_gain coins_gain now : Nat) : UserRec × Bool :=
  let new_xp := u.xp + xp_gain
  let new_coins := u.coins + coins_gain
  let new_level := calculate_level new_xp
  ({ u with xp := new_xp,
            level := new_level,
            coins := new_coins,
            total_messages := u.total_messages + 1,
            last_active := now },
   decide (u.level < new_level))

/-- `handle_message` (bot.py lines 570-608): returns the user row as it stands
after the handler.  Non-group chats and bot authors are ignored; otherwise
`update_user_xp` is applied with the per-message constants, and on level-up
the handler re-reads the row and writes `coins + 50`. -/
def handle_message (chat_type : String) (is_bot : Bool) (u : UserRec) (now : Nat) : UserRec :=
  if chat_type ≠ "group" ∧ chat_type ≠ "supergroup" then u
  else if is_bot then u
  else
    let res := update_user_xp u Config.XP_PER_MESSAGE Config.COINS_PER_MESSAGE now
    if res.2 then { res.1 with coins := res.1.coins + 50 } else res.1

/-- Outcome reported by a purchase or rank-upgrade handler: the success
message, the insufficient-funds message, or the generic message sent by the
`except Exception` handler. -/
inductive Outcome where
  | success
  | insufficientFunds
  | error
deriving DecidableEq

/-- Python `str.upper()` as used on the rank token: character-wise uppercase
(the tokens involved are plain ASCII). -/
def pyUpper (s : String) : String := String.mk (s.data.map Char.toUpper)

/-- `Config.RANK_PRICES[rank]` as a lookup returning an Option: `none` models KeyError. -/
def lookupRankPrice (rank : String) : Option Nat :=
  (Config.RANK_PRICES.find? (fun p => p.1 == rank)).map (fun p => p.2)

/-- `handle_shop_purchase` (bot.py lines 636-694): `item_index` is
`int(callback_data.split("_")[1])`; an out-of-range index raises IndexError,
caught by the generic handler.  Otherwise: insufficient funds leave the row
untouched; a purchase writes only the `coins` field. -/
def handle_shop_purchase (u : UserRec) (item_index : Nat) : UserRec × Outcome :=
  match SHOP_ITEMS[item_index]? with
  | none => (u, Outcome.error)
  | some item =>
    if u.coins < item.price then (u, Outcome.insufficientFunds)
    else ({ u with coins := u.coins - item.price }, Outcome.success)

/-- `handle_rank_upgrade` (bot.py lines 696-752): `rank_token` is
`callback_data.split("_")[1]` (the shop buttons emit `upgrade_` followed by
the lowercased rank).  The handler uppercases it and indexes
`Config.RANK_PRICES`; a missing key raises KeyError, caught by the generic
handler.  Otherwise it checks affordability and, on success, writes the new
coin balance and the uppercased rank. -/
def handle_rank_upgrade (u : UserRec) (rank_token : String) : UserRec × Outcome :=
  let rank := pyUpper rank_token
  match lookupRankPrice rank with
  | none => (u, Outcome.error)
  | some price =>
    if u.coins < price then (u, Outcome.insufficientFunds)
    else ({ u with coins := u.coins - price, rank := rank }, Outcome.success)

theorem nextRequired_pos {r : Nat} (hr : 0 < r) : 0 < nextRequired r := by
  unfold nextRequired; omega

theorem levelAux_eq (xp r level : Nat) :
    levelAux xp r level =
      if 0 < r ∧ r ≤ xp then levelAux (xp - r) (nextRequired r) (level + 1)
      else level := by
  rw [levelAux]
  split <;> simp_all

theorem levelAux_ge : ∀ xp r level, level ≤ levelAux xp r level := by
  intro xp
  induction xp using Nat.strongRecOn with
  | ind xp ih =>
    intro r level
    rw [levelAux_eq]
    split
    · next h =>
      exact le_trans (Nat.le_succ level) (ih (xp - r) (by omega) (nextRequired r) (level + 1))
    · exact le_refl _

theorem levelAux_bounds : ∀ xp r level, 0 < r →
    sumFrom r (levelAux xp r level - level) ≤ xp ∧
    xp < sumFrom r (levelAux xp r level - level + 1) := by
  intro xp
  induction xp using Nat.strongRecOn with
  | ind xp ih =>
    intro r level hr
    rw [levelAux_eq]
    by_cases h : r ≤ xp
    · rw [if_pos ⟨hr, h⟩]
      have hr2 := nextRequired_pos hr
      have hIH := ih (xp - r) (by omega) (nextRequired r) (level + 1) hr2
      have hge := levelAux_ge (xp - r) (nextRequired r) (level + 1)
      set L := levelAux (xp - r) (nextRequired r) (level + 1) with hL
      have h1 : L - level = (L - (level + 1)) + 1 := by omega
      rw [h1]
      have e1 : sumFrom r ((L - (level + 1)) + 1)
          = r + sumFrom (nextRequired r) (L - (level + 1)) := rfl
      have e2 : sumFrom r ((L - (level + 1) + 1) + 1)
          = r + sumFrom (nextRequired r) (L - (level + 1) + 1) := rfl
      rw [e1, e2]
      constructor
      · have := hIH.1; omega
      · have := hIH.2; omega
    · rw [if_neg (by omega)]
      have e0 : sumFrom r (level - level) = 0 := by
        have : level - level = 0 := by omega
        rw [this]; rfl
      have e1 : sumFrom r (level - level + 1) = r := by
        have : level - level + 1 = 1 := by omega
        rw [this]
        show r + sumFrom (nextRequired r) 0 = r
        rfl
      rw [e0, e1]
      omega

theorem levelAux_sumFrom : ∀ n r level, 0 < r →
    levelAux (sumFrom r n) r level = level + n := by
  intro n
  induction n with
  | zero =>
    intro r level hr
    have e : sumFrom r 0 = 0 := rfl
    rw [e, levelAux_eq, if_neg (by omega)]
    omega
  | succ n ih =>
    intro r level hr
    have e : sumFrom r (n + 1) = r + sumFrom (nextRequired r) n := rfl
    rw [levelAux_eq, if_pos]
    · rw [e]
      have h2 : r + sumFrom (nextRequired r) n - r = sumFrom (nextRequired r) n := by
        omega
      rw [h2, ih (nextRequired r) (level + 1) (nextRequired_pos hr)]
      omega
    · rw [e]
      exact ⟨hr, by omega⟩

theorem levelAux_mono : ∀ a b r level, a ≤ b →
    levelAux a r level ≤ levelAux b r level := by
  intro a
  induction a using Nat.strongRecOn with
  | ind a ih =>
    intro b r level hab
    by_cases h : 0 < r ∧ r ≤ a
    · rw [levelAux_eq a, levelAux_eq b, if_pos h, if_pos ⟨h.1, le_trans h.2 hab⟩]
      exact ih (a - r) (by omega) (b - r) (nextRequired r) (level + 1) (by omega)
    · rw [levelAux_eq a, if_neg h]
      exact levelAux_ge b r level

/-- Claim C1: the level functions are mutually consistent.  For every xp,
`calculate_xp_for_level (calculate_level xp) ≤ xp <
calculate_xp_for_level (calculate_level xp + 1)`, and for every level L ≥ 1,
`calculate_level (calculate_xp_for_level L) = L`. -/
theorem C1_level_functions_consistent :
    (∀ xp : Nat, calculate_xp_for_level (calculate_level xp) ≤ xp ∧
      xp < calculate_xp_for_level (calculate_level xp + 1)) ∧
    (∀ L : Nat, 1 ≤ L → calculate_level (calculate_xp_for_level L) = L) := by
  constructor
  · intro xp
    have hb := levelAux_bounds xp Config.BASE_XP 1 (by decide)
    have hge := levelAux_ge xp Config.BASE_XP 1
    have hL : levelAux xp Config.BASE_XP 1 - 1 + 1 = levelAux xp Config.BASE_XP 1 := by
      omega
    have h2 := hb.2
    rw [hL] at h2
    exact ⟨hb.1, h2⟩
  · intro L hL
    have h := levelAux_sumFrom (L - 1) Config.BASE_XP 1 (by decide)
    unfold calculate_level calculate_xp_for_level
    rw [h]
    omega

/-- Witness for C1 at xp = 475 and L = 4. -/
theorem C1_witness :
    (calculate_xp_for_level (calculate_level 475) ≤ 475 ∧
      475 < calculate_xp_for_level (calculate_level 475 + 1)) ∧
    (1 ≤ 4 ∧ calculate_level (calculate_xp_for_level 4) = 4) :=
  ⟨C1_level_functions_consistent.1 475,
   by decide, C1_level_functions_consistent.2 4 (by decide)⟩

/-- Claim C9: `calculate_level 0 = 1`, and `calculate_level` is monotonically
non-decreasing. -/
theorem C9_level_base_and_monotone :
    calculate_level 0 = 1 ∧
    ∀ a b : Nat, a ≤ b → calculate_level a ≤ calculate_level b := by
  constructor
  · unfold calculate_level
    rw [levelAux_eq, if_neg (by decide)]
  · intro a b hab
    exact levelAux_mono a b Config.BASE_XP 1 hab

/-- Witness for C9 at a = 0, b = 5. -/
theorem C9_witness :
    calculate_level 0 = 1 ∧ ((0 : Nat) ≤ 5 ∧ calculate_level 0 ≤ calculate_level 5) :=
  ⟨C9_level_base_and_monotone.1, by decide, C9_level_base_and_monotone.2 0 5 (by decide)⟩

/-- Claim C2 (code bug): the claim says a user with unset `last_daily` gets
a claimable result with streak 0.  As executed, `check_daily_reward` always
returns the Database-error dict because its user lookup reads an unassigned
local; the unreachable eligibility body would return claimable with streak 0
exactly as claimed. -/
theorem C2_daily_unset :
    check_daily_reward ⟨0, 1, 100, "Newbie", none, 0, 0, 0⟩ 7 0
        = DailyCheck.noClaim "Database error" none ∧
    check_daily_reward ⟨0, 1, 100, "Newbie", none, 0, 0, 0⟩ 7 0
        ≠ DailyCheck.canClaim 0 ∧
    check_daily_reward_body ⟨0, 1, 100, "Newbie", none, 0, 0, 0⟩ 7 0
        = DailyCheck.canClaim 0 := by
  refine ⟨rfl, by decide, rfl⟩

/-- Claim C3 (code bug): the claim says a same-day second attempt yields
`canClaim = false` with a non-empty `timeLeft`.  As executed,
`check_daily_reward` returns the Database-error dict with no `time_left`
field; the unreachable body would return the already-claimed result carrying
`time_until_next_day`, which is never the empty string (here, five hours into
the day, it is `19h 0m`). -/
theorem C3_daily_same_day :
    check_daily_reward ⟨0, 1, 100, "Newbie", some 7, 2, 0, 0⟩ 7 18000
        = DailyCheck.noClaim "Database error" none ∧
    check_daily_reward_body ⟨0, 1, 100, "Newbie", some 7, 2, 0, 0⟩ 7 18000
        = DailyCheck.noClaim "Already claimed today" (some (time_until_next_day 18000)) ∧
    time_until_next_day 18000 = "19h 0m" ∧
    (time_until_next_day 18000).length ≠ 0 := by
  refine ⟨rfl, rfl, by decide, by decide⟩

/-- Claim C4 (code bug): the claim says a one-day gap increments the streak
and a gap of two or more days resets it to 1.  As executed,
`check_daily_reward` returns the Database-error dict for both; the
unreachable body implements exactly the claimed candidate streaks (here,
last claim on day 6 with streak 3 and today day 7 gives 4; last claim on
day 3 gives 1). -/
theorem C4_daily_gap :
    check_daily_reward ⟨0, 1, 100, "Newbie", some 6, 3, 0, 0⟩ 7 0
        = DailyCheck.noClaim "Database error" none ∧
    check_daily_reward_body ⟨0, 1, 100, "Newbie", some 6, 3, 0, 0⟩ 7 0
        = DailyCheck.canClaim 4 ∧
    check_daily_reward ⟨0, 1, 100, "Newbie", some 3, 9, 0, 0⟩ 7 0
        = DailyCheck.noClaim "Database error" none ∧
    check_daily_reward_body ⟨0, 1, 100, "Newbie", some 3, 9, 0, 0⟩ 7 0
        = DailyCheck.canClaim 1 := by
  refine ⟨rfl, rfl, rfl, rfl⟩

/-- Claim C5: the daily grant adds
`BASE + BASE * min (streak * 10) 200 / 100` coins (with
`BASE = DAILY_REWARD_COINS = 100`) and the same formula with
`DAILY_REWARD_XP = 50` for xp; concretely streak 5 gives +150 coins and
+75 xp, and streak 25 gives +300 coins (bonus capped at 200 percent). -/
theorem C5_daily_reward_amounts :
    (∀ (u : UserRec) (streak now_day : Nat),
      (daily_grant u streak now_day).coins
          = u.coins + (Config.DAILY_REWARD_COINS
              + Config.DAILY_REWARD_COINS * min (streak * 10) 200 / 100) ∧
      (daily_grant u streak now_day).xp
          = u.xp + (Config.DAILY_REWARD_XP
              + Config.DAILY_REWARD_XP * min (streak * 10) 200 / 100)) ∧
    (∀ (u : UserRec) (now_day : Nat),
      (daily_grant u 5 now_day).coins = u.coins + 150 ∧
      (daily_grant u 5 now_day).xp = u.xp + 75 ∧
      (daily_grant u 25 now_day).coins = u.coins + 300) := by
  constructor
  · intro u streak now_day
    exact ⟨rfl, rfl⟩
  · intro u now_day
    refine ⟨?_, ?_, ?_⟩ <;> simp [daily_grant, Config.DAILY_REWARD_COINS, Config.DAILY_REWARD_XP]

/-- Claim C6: a qualifying message (group or supergroup chat, author not a
bot) increases `total_messages` by exactly 1, xp by `XP_PER_MESSAGE` and
coins by `COINS_PER_MESSAGE`, plus the fixed +50 level-up bonus exactly when
the grant crosses a level boundary. -/
theorem C6_message_reward (chat_type : String) (is_bot : Bool) (u : UserRec) (now : Nat)
    (hq : (chat_type = "group" ∨ chat_type = "supergroup") ∧ is_bot = false) :
    (handle_message chat_type is_bot u now).total_messages = u.total_messages + 1 ∧
    (handle_message chat_type is_bot u now).xp = u.xp + Config.XP_PER_MESSAGE ∧
    (handle_message chat_type is_bot u now).coins
        = u.coins + Config.COINS_PER_MESSAGE
          + (if u.level < calculate_level (u.xp + Config.XP_PER_MESSAGE) then 50 else 0) := by
  obtain ⟨hchat, hbot⟩ := hq
  have hc : ¬(chat_type ≠ "group" ∧ chat_type ≠ "supergroup") := by
    rcases hchat with h | h <;> simp [h]
  unfold handle_message
  rw [if_neg hc, hbot]
  unfold update_user_xp
  by_cases hlev : u.level < calculate_level (u.xp + Config.XP_PER_MESSAGE)
  · simp [hlev]
  · simp [hlev]

/-- Witness for C6: a message in a group chat by a non-bot user with 98 xp at
level 1 (the grant crosses the level-2 boundary at 100 xp). -/
theorem C6_witness :
    (handle_message "group" false ⟨98, 1, 0, "Newbie", none, 0, 7, 0⟩ 5).total_messages
        = 7 + 1 ∧
    (handle_message "group" false ⟨98, 1, 0, "Newbie", none, 0, 7, 0⟩ 5).xp
        = 98 + Config.XP_PER_MESSAGE ∧
    (handle_message "group" false ⟨98, 1, 0, "Newbie", none, 0, 7, 0⟩ 5).coins
        = 0 + Config.COINS_PER_MESSAGE
          + (if 1 < calculate_level (98 + Config.XP_PER_MESSAGE) then 50 else 0) :=
  C6_message_reward "group" false ⟨98, 1, 0, "Newbie", none, 0, 7, 0⟩ 5 ⟨Or.inl rfl, rfl⟩

/-- Claim C7 (code bug): the claim says every underfunded purchase or rank
upgrade surfaces InsufficientFunds and leaves the row unchanged.  Shop items
and the VIP rank behave as claimed, but for the Premium (and Admin) buttons
the handler uppercases the token to a string that is not a key of
`RANK_PRICES`, so the KeyError path reports the generic error instead of
InsufficientFunds (the row is still unchanged). -/
theorem C7_insufficient_funds :
    handle_shop_purchase ⟨0, 1, 0, "Newbie", none, 0, 0, 0⟩ 0
        = (⟨0, 1, 0, "Newbie", none, 0, 0, 0⟩, Outcome.insufficientFunds) ∧
    handle_rank_upgrade ⟨0, 1, 0, "Newbie", none, 0, 0, 0⟩ "vip"
        = (⟨0, 1, 0, "Newbie", none, 0, 0, 0⟩, Outcome.insufficientFunds) ∧
    handle_rank_upgrade ⟨0, 1, 0, "Newbie", none, 0, 0, 0⟩ "premium"
        = (⟨0, 1, 0, "Newbie", none, 0, 0, 0⟩, Outcome.error) ∧
    Outcome.error ≠ Outcome.insufficientFunds := by
  exact ⟨rfl, rfl, rfl, by decide⟩

/-- Claim C8 (code bug): the claim says a sufficiently funded upgrade to any
rank debits `RANK_PRICES[rank]` and sets the rank, regardless of prior rank.
This holds for VIP (here a user already ranked Admin buys VIP for 5000 with
no hierarchy check), but an upgrade to Premium can never succeed: the handler
looks up the uppercased token, which is not a `RANK_PRICES` key, so even with
20000 coins the KeyError path leaves the row unchanged. -/
theorem C8_rank_upgrade :
    handle_rank_upgrade ⟨0, 1, 20000, "Admin", none, 0, 0, 0⟩ "vip"
        = (⟨0, 1, 15000, "VIP", none, 0, 0, 0⟩, Outcome.success) ∧
    handle_rank_upgrade ⟨0, 1, 20000, "Admin", none, 0, 0, 0⟩ "premium"
        = (⟨0, 1, 20000, "Admin", none, 0, 0, 0⟩, Outcome.error) ∧
    lookupRankPrice (pyUpper "premium") = none ∧
    lookupRankPrice "Premium" = some 15000 := by
  exact ⟨rfl, rfl, rfl, rfl⟩

/-- Claim C10: a successful shop purchase writes only the coins field,
debiting exactly the item price; xp, level, rank, total_messages, last_daily
and daily_streak are unchanged. -/
theorem C10_purchase_frame (u : UserRec) (idx : Nat) (item : ShopItem)
    (hidx : SHOP_ITEMS[idx]? = some item) (hafford : item.price ≤ u.coins) :
    (handle_shop_purchase u idx).1.coins = u.coins - item.price ∧
    (handle_shop_purchase u idx).1.xp = u.xp ∧
    (handle_shop_purchase u idx).1.level = u.level ∧
    (handle_shop_purchase u idx).1.rank = u.rank ∧
    (handle_shop_purchase u idx).1.total_messages = u.total_messages ∧
    (handle_shop_purchase u idx).1.last_daily = u.last_daily ∧
    (handle_shop_purchase u idx).1.daily_streak = u.daily_streak ∧
    (handle_shop_purchase u idx).2 = Outcome.success := by
  simp only [handle_shop_purchase, hidx]
  rw [if_neg (by omega)]
  exact ⟨rfl, rfl, rfl, rfl, rfl, rfl, rfl, rfl⟩

/-- Witness for C10: a user with 600 coins buys item 0 (price 500). -/
theorem C10_witness :
    (handle_shop_purchase ⟨10, 1, 600, "Member", some 3, 2, 9, 4⟩ 0).1.coins = 600 - 500 ∧
    (handle_shop_purchase ⟨10, 1, 600, "Member", some 3, 2, 9, 4⟩ 0).1.xp = 10 ∧
    (handle_shop_purchase ⟨10, 1, 600, "Member", some 3, 2, 9, 4⟩ 0).1.level = 1 ∧
    (handle_shop_purchase ⟨10, 1, 600, "Member", some 3, 2, 9, 4⟩ 0).1.rank = "Member" ∧
    (handle_shop_purchase ⟨10, 1, 600, "Member", some 3, 2, 9, 4⟩ 0).1.total_messages = 9 ∧
    (handle_shop_purchase ⟨10, 1, 600, "Member", some 3, 2, 9, 4⟩ 0).1.last_daily = some 3 ∧
    (handle_shop_purchase ⟨10, 1, 600, "Member", some 3, 2, 9, 4⟩ 0).1.daily_streak = 2 ∧
    (handle_shop_purchase ⟨10, 1, 600, "Member", some 3, 2, 9, 4⟩ 0).2 = Outcome.success :=
  C10_purchase_frame ⟨10, 1, 600, "Member", some 3, 2, 9, 4⟩ 0
    ⟨"🎯 Double XP (1 hour)", 500, "boost", some 3600⟩ rfl (by decide)
